import Mathlib

/-!
# Verification of the fae C boundary layer

A shallow embedding of the `fae` embedding boundary: the C-callable surface
declared in `src/include/fae.h` (handle lifecycle, command channel, event
queue, callback dispatcher, string ownership).  Only the header is present
in the repository sources; the behaviour behind each declaration is
modelled from the specification's own words, as marked on each definition.
-/

namespace Fae

/-- Lifecycle states of a runtime handle (spec §4.2:
`Created → Running → Stopped`, with `Destroyed` reachable from any state). -/
inductive Lifecycle where
  | created
  | running
  | stopped
  | destroyed
  deriving DecidableEq, Repr

/-- Modelled from the spec: the `RuntimeHandle` data model (spec §3) behind the
opaque `FaeCoreHandle` pointer of `fae.h`; the header gives no field layout.
Attributes: lifecycle state, an event buffer (FIFO list, oldest first), and a
registered callback slot (an opaque callback identity, or empty).  Payloads are
opaque strings, which the boundary never parses. -/
structure Handle where
  life : Lifecycle
  queue : List String
  callback : Option Nat
  deriving DecidableEq, Repr

/-- Result of one `fae_core_send_command` call: the response handed to the
caller, the handle state after the call, and the list of events that were
delivered synchronously through the registered callback (in delivery order)
strictly before the call returned. -/
structure SendResult where
  response : Option String
  handle : Handle
  delivered : List String
  deriving DecidableEq, Repr

/-- Modelled from the spec: `fae_core_init` (fae.h lines 57–63); the
implementation is not under `src/`.  Validates the configuration payload
against a backend-supplied validity predicate; a NULL config returns NULL
(header line 60), an invalid config yields a null result, and a valid config
yields a freshly constructed handle in `Created` state with an empty event
buffer and no callback registered — never a partially-initialized handle. -/
def fae_core_init (valid : String → Bool) (config_json : Option String) :
    Option Handle :=
  match config_json with
  | none => none
  | some c =>
      if valid c then some ⟨Lifecycle.created, [], none⟩ else none

/-- Modelled from the spec: `fae_core_start` (fae.h lines 65–71); the
implementation is not under `src/`.  Transitions `Created → Running` (and
`Stopped → Running` on restart, spec §8), stands up the dispatch path, and
returns a status code: 0 on success, -1 on failure (failure here: the handle
was destroyed, so no dispatch path can be stood up).  `start` on an
already-running handle is a no-op success.  Never throws past the boundary:
the function is total. -/
def fae_core_start (h : Handle) : Int × Handle :=
  match h.life with
  | Lifecycle.created => (0, { h with life := Lifecycle.running })
  | Lifecycle.stopped => (0, { h with life := Lifecycle.running })
  | Lifecycle.running => (0, h)
  | Lifecycle.destroyed => (-1, h)

/-- Modelled from the spec: `fae_core_send_command` (fae.h lines 73–86); the
implementation is not under `src/`.  The backend's contribution to one call is
abstracted as its response (`none` = dispatch failure: malformed command,
backend error, invalid handle) and the list of events it emitted while
processing the command, in emission order.  If a callback is registered those
events are flushed synchronously through it, in emission order, before the
call returns (`delivered`); otherwise they are appended to the event queue in
emission order.  Failure is reported as a null response and leaves the handle
state untouched. -/
def fae_core_send_command (h : Handle)
    (backend : Option (String × List String)) : SendResult :=
  match backend with
  | none => ⟨none, h, []⟩
  | some (r, emitted) =>
      match h.callback with
      | some _ => ⟨some r, h, emitted⟩
      | none => ⟨some r, { h with queue := h.queue ++ emitted }, []⟩

/-- Modelled from the spec: `fae_core_poll_event` (fae.h lines 88–94); the
implementation is not under `src/`.  Non-blocking: removes and returns the
oldest pending event (FIFO) if the buffer is non-empty, else returns the
representable absence `none`. -/
def fae_core_poll_event (h : Handle) : Option String × Handle :=
  match h.queue with
  | [] => (none, h)
  | e :: rest => (some e, { h with queue := rest })

/-- Modelled from the spec: `fae_core_set_event_callback` (fae.h lines 96–107);
the implementation is not under `src/`.  Registers (or, with `none`,
unregisters) the synchronous delivery target. -/
def fae_core_set_event_callback (h : Handle) (callback : Option Nat) : Handle :=
  { h with callback := callback }

/-- Modelled from the spec: `fae_core_stop` (fae.h lines 109–116); the
implementation is not under `src/`.  Transitions `Running → Stopped`,
cancelling the dispatch path; on any non-running handle it is a safe no-op.
It never deallocates the handle. -/
def fae_core_stop (h : Handle) : Handle :=
  match h.life with
  | Lifecycle.running => { h with life := Lifecycle.stopped }
  | _ => h

/-- Modelled from the spec: `fae_core_destroy` (fae.h lines 118–125); the
implementation is not under `src/`.  Releases everything the handle owns:
dispatch path, event buffer, callback registration.  A null handle is a
no-op. -/
def fae_core_destroy (h : Option Handle) : Option Handle :=
  match h with
  | none => none
  | some _ => some ⟨Lifecycle.destroyed, [], none⟩

/-- Modelled from the spec: `fae_string_free` (fae.h lines 127–134); the
implementation is not under `src/`.  The host-side model of boundary
allocations is the multiset of live boundary-allocated strings; freeing a
string removes one occurrence, and freeing NULL is a safe no-op. -/
def fae_string_free (s : Option String) (live : Multiset String) :
    Multiset String :=
  match s with
  | none => live
  | some str => live.erase str

/-- Modelled from the spec: `fae_keep_alive` (fae.h lines 136–143); the
implementation is not under `src/`.  A linker dead-strip anchor with no
host-observable effect on any handle: the identity on boundary state. -/
def fae_keep_alive (h : Handle) : Handle := h

/-- The nine functions exported by the C surface, in header order
(fae.h lines 63, 71, 86, 94, 105, 116, 125, 134, 143). -/
def exported_functions : List String :=
  ["fae_core_init", "fae_core_start", "fae_core_send_command",
   "fae_core_poll_event", "fae_core_set_event_callback", "fae_core_stop",
   "fae_core_destroy", "fae_string_free", "fae_keep_alive"]

/-- The eight operations of the spec's external interface (spec §6), under
their C names. -/
def spec_operations : List String :=
  ["fae_core_init", "fae_core_start", "fae_core_send_command",
   "fae_core_poll_event", "fae_core_set_event_callback", "fae_core_stop",
   "fae_core_destroy", "fae_string_free"]

/-! ## Concurrency model for destroy vs. in-flight commands

Spec §5 requires `destroy` to synchronize with in-flight `send_command`
calls (graceful drain).  We model the relevant shared state as the number of
`send_command` calls currently in flight together with a destroyed flag, and
the boundary's serialization discipline as a step relation. -/

/-- Shared state of one handle as seen by the drain discipline: how many
`send_command` calls are in flight (entered but not yet returned), and whether
`fae_core_destroy` has completed on it. -/
structure SysState where
  inFlight : Nat
  destroyed : Bool
  deriving DecidableEq, Repr

/-- Modelled from the spec: the interleaving discipline of the boundary
(spec §5); the implementing dispatch code is not under `src/`.
`beginCmd`/`endCmd` bracket one `send_command` call; `endCmd` fires only once
that command's response path has resolved.  `destroyStep` is the completion
of `fae_core_destroy`, which blocks until no command is outstanding (graceful
drain) — hence its `inFlight = 0` guard — and may complete only once. -/
inductive SysStep : SysState → SysState → Prop where
  | beginCmd (s : SysState) (h : s.destroyed = false) :
      SysStep s ⟨s.inFlight + 1, s.destroyed⟩
  | endCmd (s : SysState) (h : 0 < s.inFlight) :
      SysStep s ⟨s.inFlight - 1, s.destroyed⟩
  | destroyStep (s : SysState) (h : s.inFlight = 0)
      (h2 : s.destroyed = false) : SysStep s ⟨0, true⟩

/-- A state is reachable if the step relation connects the initial state
(no command in flight, not destroyed) to it. -/
def Reachable (s : SysState) : Prop :=
  Relation.ReflTransGen SysStep ⟨0, false⟩ s

/-! ## Claims -/

/-- C1: for every command processed by `fae_core_send_command`, if a callback
is registered the events the backend emitted while processing the command are
delivered synchronously through the callback, in emission order, before the
call returns, and the event queue is untouched; if no callback is registered
nothing is delivered through the callback and those events are appended to the
event queue in emission order.  The events of one command are never split
across the two paths, and no event instance reaches both the callback and the
queue. -/
theorem fae_send_command_event_routing (h : Handle) (r : String)
    (emitted : List String) :
    (∀ cb, h.callback = some cb →
      (fae_core_send_command h (some (r, emitted))).delivered = emitted ∧
      (fae_core_send_command h (some (r, emitted))).handle.queue = h.queue) ∧
    (h.callback = none →
      (fae_core_send_command h (some (r, emitted))).delivered = [] ∧
      (fae_core_send_command h (some (r, emitted))).handle.queue
        = h.queue ++ emitted) := by
  cases hc : h.callback <;>
    simp [fae_core_send_command, hc]

/-- Witness for C1 at concrete inputs: with a callback registered both events
are delivered in order and the queue is untouched; with no callback the queue
gains both events in order. -/
theorem fae_send_command_event_routing_witness :
    ((fae_core_send_command ⟨Lifecycle.running, ["old"], some 7⟩
        (some ("ok", ["e1", "e2"]))).delivered = ["e1", "e2"] ∧
      (fae_core_send_command ⟨Lifecycle.running, ["old"], some 7⟩
        (some ("ok", ["e1", "e2"]))).handle.queue = ["old"]) ∧
    ((fae_core_send_command ⟨Lifecycle.running, ["old"], none⟩
        (some ("ok", ["e1", "e2"]))).delivered = [] ∧
      (fae_core_send_command ⟨Lifecycle.running, ["old"], none⟩
        (some ("ok", ["e1", "e2"]))).handle.queue = ["old", "e1", "e2"]) := by
  refine ⟨?_, ?_⟩
  · exact (fae_send_command_event_routing
      ⟨Lifecycle.running, ["old"], some 7⟩ "ok" ["e1", "e2"]).1 7 rfl
  · exact (fae_send_command_event_routing
      ⟨Lifecycle.running, ["old"], none⟩ "ok" ["e1", "e2"]).2 rfl

/-- C2: `fae_core_poll_event` is non-blocking and total; on an empty buffer it
returns the representable absence `none` and leaves the handle unchanged; on a
non-empty buffer it removes and returns the oldest pending event; two events
buffered in order E1 then E2 are returned E1 first, then E2, each exactly
once. -/
theorem fae_poll_event_fifo (h : Handle) :
    (h.queue = [] → fae_core_poll_event h = (none, h)) ∧
    (∀ e rest, h.queue = e :: rest →
      fae_core_poll_event h = (some e, { h with queue := rest })) ∧
    (∀ e1 e2 rest, h.queue = e1 :: e2 :: rest →
      (fae_core_poll_event h).1 = some e1 ∧
      (fae_core_poll_event (fae_core_poll_event h).2).1 = some e2 ∧
      (fae_core_poll_event (fae_core_poll_event h).2).2.queue = rest) := by
  refine ⟨fun hq => ?_, fun e rest hq => ?_, fun e1 e2 rest hq => ?_⟩ <;>
    simp [fae_core_poll_event, hq]

/-- Witness for C2 at a concrete handle buffering E1 then E2: polling returns
E1, then E2, then the buffer is empty. -/
theorem fae_poll_event_fifo_witness :
    (fae_core_poll_event ⟨Lifecycle.running, ["E1", "E2"], none⟩).1
        = some "E1" ∧
    (fae_core_poll_event
      (fae_core_poll_event ⟨Lifecycle.running, ["E1", "E2"], none⟩).2).1
        = some "E2" ∧
    (fae_core_poll_event
      (fae_core_poll_event ⟨Lifecycle.running, ["E1", "E2"], none⟩).2).2.queue
        = [] := by
  exact (fae_poll_event_fifo ⟨Lifecycle.running, ["E1", "E2"], none⟩).2.2
    "E1" "E2" [] rfl

/-- C3: a dispatch failure in `fae_core_send_command` is reported as a null
response — the model is a total function, so no exception or process
termination is possible — and the handle state is left exactly as it was, so
the handle remains usable for subsequent boundary calls. -/
theorem fae_send_command_failure_not_fatal (h : Handle) :
    (fae_core_send_command h none).response = none ∧
    (fae_core_send_command h none).handle = h ∧
    (fae_core_send_command h none).delivered = [] := by
  simp [fae_core_send_command]

/-- C4: `fae_core_init` on a NULL config returns NULL (as the header pins);
on an invalid configuration it returns a null handle; and whenever it returns
a handle, that handle is fully initialized — `Created` state, empty event
buffer, no callback — never a partially-initialized handle, so no resources
are held on the failure paths. -/
theorem fae_init_invalid_config_null (valid : String → Bool) :
    fae_core_init valid none = none ∧
    (∀ c, valid c = false → fae_core_init valid (some c) = none) ∧
    (∀ c hh, fae_core_init valid (some c) = some hh →
      hh.life = Lifecycle.created ∧ hh.queue = [] ∧ hh.callback = none) := by
  refine ⟨rfl, fun c hv => ?_, fun c hh hinit => ?_⟩
  · simp [fae_core_init, hv]
  · unfold fae_core_init at hinit
    by_cases hv : valid c = true
    · simp [hv] at hinit
      simp [← hinit]
    · simp [hv] at hinit

/-- Witness for C4 with the concrete validity predicate accepting only `"{}"`:
NULL config gives NULL, an invalid config gives NULL, and the handle produced
from a valid config is fully initialized. -/
theorem fae_init_invalid_config_null_witness :
    fae_core_init (fun c => c == "{}") none = none ∧
    fae_core_init (fun c => c == "{}") (some "bad") = none ∧
    ((⟨Lifecycle.created, [], none⟩ : Handle).life = Lifecycle.created ∧
      (⟨Lifecycle.created, [], none⟩ : Handle).queue = [] ∧
      (⟨Lifecycle.created, [], none⟩ : Handle).callback = none) := by
  refine ⟨(fae_init_invalid_config_null (fun c => c == "{}")).1,
    (fae_init_invalid_config_null (fun c => c == "{}")).2.1 "bad" (by decide),
    (fae_init_invalid_config_null (fun c => c == "{}")).2.2 "{}"
      ⟨Lifecycle.created, [], none⟩ (by decide)⟩

/-- C5: in every reachable state of the drain discipline, once
`fae_core_destroy` has completed no `send_command` call is in flight: destroy
synchronizes with outstanding commands (graceful drain), so no internal
runtime resource is freed while still in use. -/
theorem fae_destroy_graceful_drain (s : SysState) (hr : Reachable s)
    (hd : s.destroyed = true) : s.inFlight = 0 := by
  induction hr with
  | refl => simp at hd
  | tail _ hstep ih =>
      cases hstep with
      | beginCmd hdf => exact absurd hd (by simp [hdf])
      | endCmd hpos => exact absurd hpos (by simp [ih hd])
      | destroyStep hz hdf => rfl

/-- Witness for C5: the state reached by destroying with no command in flight
is reachable and destroyed, and the theorem yields that nothing is in
flight. -/
theorem fae_destroy_graceful_drain_witness :
    Reachable ⟨0, true⟩ ∧ (⟨0, true⟩ : SysState).inFlight = 0 := by
  have hreach : Reachable ⟨0, true⟩ :=
    Relation.ReflTransGen.single (SysStep.destroyStep ⟨0, false⟩ rfl rfl)
  exact ⟨hreach, fae_destroy_graceful_drain ⟨0, true⟩ hreach rfl⟩

/-- C6: `fae_string_free` on a null input is a safe no-op on the set of live
boundary allocations, and iterating any number of such calls is still a
no-op. -/
theorem fae_string_free_null_noop (live : Multiset String) (n : Nat) :
    (fae_string_free none)^[n] live = live := by
  have hid : fae_string_free none = id := rfl
  simp [hid]

/-- C7: `fae_core_stop` is idempotent (stop after stop equals stop), takes a
running handle to `Stopped`, is a safe no-op on any non-running handle, and
never deallocates: it never moves a handle into the `Destroyed` state. -/
theorem fae_stop_idempotent (h : Handle) :
    fae_core_stop (fae_core_stop h) = fae_core_stop h ∧
    (h.life = Lifecycle.running →
      (fae_core_stop h).life = Lifecycle.stopped) ∧
    (h.life ≠ Lifecycle.running → fae_core_stop h = h) ∧
    (h.life ≠ Lifecycle.destroyed →
      (fae_core_stop h).life ≠ Lifecycle.destroyed) := by
  cases h with
  | mk life q cb => cases life <;> simp [fae_core_stop]

/-- Witness for C7 at concrete handles: stop takes a running handle to
`Stopped`, stop of a stopped handle is a no-op, and the stopped handle is not
destroyed. -/
theorem fae_stop_idempotent_witness :
    (fae_core_stop ⟨Lifecycle.running, [], none⟩).life = Lifecycle.stopped ∧
    fae_core_stop ⟨Lifecycle.stopped, [], none⟩
      = ⟨Lifecycle.stopped, [], none⟩ ∧
    (fae_core_stop ⟨Lifecycle.running, [], none⟩).life
      ≠ Lifecycle.destroyed := by
  refine ⟨(fae_stop_idempotent ⟨Lifecycle.running, [], none⟩).2.1 rfl,
    (fae_stop_idempotent ⟨Lifecycle.stopped, [], none⟩).2.2.1 (by simp),
    (fae_stop_idempotent ⟨Lifecycle.running, [], none⟩).2.2.2 (by simp)⟩

/-- C8: restart equivalence — on a running handle, stop then start succeeds
(status 0) and restores exactly the boundary state the handle had, so a
subsequent `send_command` behaves identically to the same `send_command`
issued before the stop/start round trip: the boundary is stateless across
stop/start. -/
theorem fae_restart_equivalence (h : Handle)
    (hrun : h.life = Lifecycle.running) :
    (fae_core_start (fae_core_stop h)).1 = 0 ∧
    (fae_core_start (fae_core_stop h)).2 = h ∧
    (∀ backend, fae_core_send_command
      (fae_core_start (fae_core_stop h)).2 backend
        = fae_core_send_command h backend) := by
  cases h with
  | mk life q cb =>
      simp only at hrun
      subst hrun
      simp [fae_core_stop, fae_core_start]

/-- Witness for C8 at a concrete running handle: stop then start returns 0 and
restores the handle, and a concrete command behaves identically. -/
theorem fae_restart_equivalence_witness :
    (fae_core_start
      (fae_core_stop ⟨Lifecycle.running, ["e"], some 3⟩)).1 = 0 ∧
    (fae_core_start
      (fae_core_stop ⟨Lifecycle.running, ["e"], some 3⟩)).2
        = ⟨Lifecycle.running, ["e"], some 3⟩ ∧
    fae_core_send_command
      (fae_core_start (fae_core_stop ⟨Lifecycle.running, ["e"], some 3⟩)).2
      (some ("pong", []))
        = fae_core_send_command ⟨Lifecycle.running, ["e"], some 3⟩
            (some ("pong", [])) := by
  have h := fae_restart_equivalence ⟨Lifecycle.running, ["e"], some 3⟩ rfl
  exact ⟨h.1, h.2.1, h.2.2 (some ("pong", []))⟩

/-- C9: `fae_core_start` always returns exactly one of the two status codes 0
(success) or -1 (failure); the model is a total function, so no failure
escapes the boundary as an exception or unwind. -/
theorem fae_start_status_codes (h : Handle) :
    (fae_core_start h).1 = 0 ∨ (fae_core_start h).1 = -1 := by
  cases h with
  | mk life q cb => cases life <;> simp [fae_core_start]

/-- C10: the C surface exports nine functions — the eight operations of the
spec plus `fae_keep_alive` as the ninth — and `fae_keep_alive` has no
host-observable effect on any handle: lifecycle state, event buffer and
callback registration are all unchanged. -/
theorem fae_keep_alive_ninth_function :
    exported_functions.length = 9 ∧
    "fae_keep_alive" ∈ exported_functions ∧
    "fae_keep_alive" ∉ spec_operations ∧
    exported_functions = spec_operations ++ ["fae_keep_alive"] ∧
    ∀ h : Handle, fae_keep_alive h = h ∧
      (fae_keep_alive h).life = h.life ∧
      (fae_keep_alive h).queue = h.queue ∧
      (fae_keep_alive h).callback = h.callback := by
  exact ⟨rfl, by decide, by decide, rfl, fun h => ⟨rfl, rfl, rfl, rfl⟩⟩

end Fae
